import Mathlib

set_option maxRecDepth 100000

/-
Verification of the backpressure simulation loop of the streaming demo
(`runRealTimeStreamDemo` in `src/lib/streams.ts`).

The simulation is embedded shallowly: the mutable loop of the source is
modelled as a guarded step function on an explicit state record, iterated
a bounded number of times.  The JavaScript `Math.random()` draw
(`Math.floor(Math.random() * 100)`) is injected as a function
`rng : Nat → Nat` supplying the raw draw for the k-th generated item; the
drawn value is `rng k % 100`, matching the range of the source expression.
Wall-clock timestamps (`Date.now()`) are not modelled: events carry their
payload data fields only, in emission order.
-/

namespace Streams

/-- The processing speed classes of `StreamDemoOptions.processingSpeed`. -/
inductive Speed
  | slow
  | normal
  | fast
deriving DecidableEq, Repr

/-- The per-item consumer delay, from `processDelay` in `src/lib/streams.ts`:
slow ↦ 200, normal ↦ 50, fast ↦ 10. -/
def processDelay : Speed → Nat
  | .slow => 200
  | .normal => 50
  | .fast => 10

/-- The configuration fields of `StreamDemoOptions` that the real-time
simulation reads (`processingSpeed` and `enableBackpressure`; `onEvent` is
modelled by the accumulated event list, `batchSize` is unused there). -/
structure StreamDemoOptions where
  processingSpeed : Speed
  enableBackpressure : Bool
deriving DecidableEq, Repr

/-- `const BUFFER_LIMIT = 5`. -/
def BUFFER_LIMIT : Nat := 5

/-- `const TOTAL_ITEMS = 20`. -/
def TOTAL_ITEMS : Nat := 20

/-- `const producerInterval = 30`. -/
def producerInterval : Nat := 30

/-- The divisor `10` used in both `Math.ceil(producerInterval / 10)` and
`Math.ceil(consumerDelay / 10)`. -/
def cycleQuantum : Nat := 10

/-- `Math.ceil(a / b)` for nonnegative integers. -/
def ceilDiv (a b : Nat) : Nat := (a + b - 1) / b

/-- The event types of `StreamEventType` in `src/lib/streams.ts`. -/
inductive StreamEventType
  | csvRow
  | transform
  | batch
  | complete
  | error
  | backpressure
  | throttle
deriving DecidableEq, Repr

/-- One event delivered to `onEvent` by `runRealTimeStreamDemo`: one
constructor per `onEvent` call site, carrying the numeric payload fields of
that site (`data` where present). -/
inductive SimEvent
  | introBanner
  | introConfig
  | introTiming
  | generated (value bufferSize : Nat)
  | blocked (bufferSize : Nat)
  | overflow (droppedValue totalDropped : Nat)
  | consumed (value transformed bufferSize processedSoFar : Nat)
  | finalSummary (generated processed dropped sum backpressureEvents : Nat)
  | bpSummary (backpressureEvents : Nat) (noLoss : Bool)
  | overflowSummary (dropped : Nat)
deriving DecidableEq, Repr

/-- The `type` field each call site passes to `onEvent`. -/
def eventType : SimEvent → StreamEventType
  | .introBanner => .transform
  | .introConfig => .transform
  | .introTiming => .transform
  | .generated _ _ => .transform
  | .blocked _ => .backpressure
  | .overflow _ _ => .error
  | .consumed _ _ _ _ => .transform
  | .finalSummary _ _ _ _ _ => .complete
  | .bpSummary _ _ => .complete
  | .overflowSummary _ => .complete

/-- The mutable loop state of `runRealTimeStreamDemo`: `cycles`, the four
counters, the shared `buffer`, the `results` accumulator, and the events
emitted so far. -/
structure SimState where
  cycles : Nat
  itemsGenerated : Nat
  itemsProcessed : Nat
  itemsDropped : Nat
  backpressureEvents : Nat
  buffer : List Nat
  results : List Nat
  events : List SimEvent
deriving DecidableEq, Repr

/-- PRODUCER PHASE of one loop iteration.  Fires when fewer than
`TOTAL_ITEMS` items have been generated and
`cycles % Math.ceil(producerInterval / 10) === 0`.  With backpressure it
pushes only below `BUFFER_LIMIT`, otherwise counting a backpressure event;
without backpressure it first drops the oldest item when the buffer is
full (`buffer.shift()`), then always pushes. -/
def producerPhase (opts : StreamDemoOptions) (rng : Nat → Nat) (s : SimState) : SimState :=
  if s.itemsGenerated < TOTAL_ITEMS ∧ s.cycles % ceilDiv producerInterval cycleQuantum = 0 then
    if opts.enableBackpressure then
      if s.buffer.length < BUFFER_LIMIT then
        let newValue := rng s.itemsGenerated % 100
        { s with
          buffer := s.buffer ++ [newValue]
          itemsGenerated := s.itemsGenerated + 1
          events := s.events ++ [.generated newValue (s.buffer.length + 1)] }
      else
        { s with
          backpressureEvents := s.backpressureEvents + 1
          events := s.events ++ [.blocked s.buffer.length] }
    else
      let s1 :=
        if BUFFER_LIMIT ≤ s.buffer.length then
          { s with
            buffer := s.buffer.tail
            itemsDropped := s.itemsDropped + 1
            events := s.events ++ [.overflow (s.buffer.headD 0) (s.itemsDropped + 1)] }
        else s
      let newValue := rng s1.itemsGenerated % 100
      { s1 with
        buffer := s1.buffer ++ [newValue]
        itemsGenerated := s1.itemsGenerated + 1
        events := s1.events ++ [.generated newValue (s1.buffer.length + 1)] }
  else s

/-- CONSUMER PHASE of one loop iteration.  Fires when the buffer is nonempty
and `cycles % Math.ceil(consumerDelay / 10) === 0`: pops the oldest value,
doubles it, appends to `results` and counts it processed. -/
def consumerPhase (opts : StreamDemoOptions) (s : SimState) : SimState :=
  if 0 < s.buffer.length ∧
      s.cycles % ceilDiv (processDelay opts.processingSpeed) cycleQuantum = 0 then
    let value := s.buffer.headD 0
    { s with
      buffer := s.buffer.tail
      results := s.results ++ [value * 2]
      itemsProcessed := s.itemsProcessed + 1
      events := s.events ++ [.consumed value (value * 2) s.buffer.tail.length (s.itemsProcessed + 1)] }
  else s

/-- One iteration of the `while` loop: `cycles++`, producer phase, consumer
phase (the trailing `Effect.delay(Effect.void, 10)` has no modelled effect). -/
def tick (opts : StreamDemoOptions) (rng : Nat → Nat) (s : SimState) : SimState :=
  consumerPhase opts (producerPhase opts rng { s with cycles := s.cycles + 1 })

/-- `const maxCycles = Math.max(TOTAL_ITEMS * 2, 60)`. -/
def maxCycles : Nat := max (TOTAL_ITEMS * 2) 60

/-- The state just before the loop: zeroed counters, empty buffer, and the
three introductory `transform` events already emitted. -/
def initState : SimState :=
  { cycles := 0
    itemsGenerated := 0
    itemsProcessed := 0
    itemsDropped := 0
    backpressureEvents := 0
    buffer := []
    results := []
    events := [.introBanner, .introConfig, .introTiming] }

/-- The `while` guard `cycles < maxCycles && itemsProcessed < TOTAL_ITEMS`. -/
def loopGuard (s : SimState) : Prop :=
  s.cycles < maxCycles ∧ s.itemsProcessed < TOTAL_ITEMS

instance (s : SimState) : Decidable (loopGuard s) := by
  unfold loopGuard
  infer_instance

/-- The state after `n` guarded loop iterations; once the guard fails the
state is left unchanged, so `stepN opts rng maxCycles` is the state at which
the source's `while` loop exits (each iteration increments `cycles`, so the
loop runs at most `maxCycles` times). -/
def stepN (opts : StreamDemoOptions) (rng : Nat → Nat) : Nat → SimState
  | 0 => initState
  | n + 1 =>
    let s := stepN opts rng n
    if loopGuard s then tick opts rng s else s

/-- The loop's exit state. -/
def finalState (opts : StreamDemoOptions) (rng : Nat → Nat) : SimState :=
  stepN opts rng maxCycles

/-- `results.reduce((acc, val) => acc + val, 0)`. -/
def sumList (l : List Nat) : Nat := l.foldl (· + ·) 0

/-- The record type `runRealTimeStreamDemo` returns:
`{ processed: itemsProcessed, sum, backpressureEvents }`. -/
structure SimulationResult where
  processed : Nat
  sum : Nat
  backpressureEvents : Nat
deriving DecidableEq, Repr

/-- The value returned by `runRealTimeStreamDemo`. -/
def runRealTimeStreamDemo (opts : StreamDemoOptions) (rng : Nat → Nat) : SimulationResult :=
  let f := finalState opts rng
  { processed := f.itemsProcessed
    sum := sumList f.results
    backpressureEvents := f.backpressureEvents }

/-- The full ordered sequence of events delivered to `onEvent` during a run:
the loop's events followed by the final `complete` summary event (whose
`data` carries all five aggregates) and the policy-specific closing
`complete` message. -/
def runEvents (opts : StreamDemoOptions) (rng : Nat → Nat) : List SimEvent :=
  let f := finalState opts rng
  let sum := sumList f.results
  f.events
    ++ [.finalSummary f.itemsGenerated f.itemsProcessed f.itemsDropped sum f.backpressureEvents]
    ++ [if opts.enableBackpressure then
          .bpSummary f.backpressureEvents (f.itemsDropped == 0)
        else
          .overflowSummary f.itemsDropped]

/-- A concrete deterministic random source used in witnesses. -/
def rng0 : Nat → Nat := fun _ => 0

/-!
## Value-erased abstraction

The branch structure of the loop depends only on `cycles`, the counters and
the buffer's length, never on the random values stored in the buffer.  The
`shape` projection forgets the values; the simulation commutes with it, so
every count is independent of the random source and can be computed once.
-/

/-- The counters and buffer occupancy of a state, with the stored values
erased. -/
structure SimShape where
  cycles : Nat
  itemsGenerated : Nat
  itemsProcessed : Nat
  itemsDropped : Nat
  backpressureEvents : Nat
  bufLen : Nat
deriving DecidableEq, Repr

/-- Project a state to its counters and buffer occupancy. -/
def shape (s : SimState) : SimShape :=
  { cycles := s.cycles
    itemsGenerated := s.itemsGenerated
    itemsProcessed := s.itemsProcessed
    itemsDropped := s.itemsDropped
    backpressureEvents := s.backpressureEvents
    bufLen := s.buffer.length }

/-- The producer phase on erased states. -/
def shapeProducer (opts : StreamDemoOptions) (t : SimShape) : SimShape :=
  if t.itemsGenerated < TOTAL_ITEMS ∧ t.cycles % ceilDiv producerInterval cycleQuantum = 0 then
    if opts.enableBackpressure then
      if t.bufLen < BUFFER_LIMIT then
        { t with
          bufLen := t.bufLen + 1
          itemsGenerated := t.itemsGenerated + 1 }
      else
        { t with backpressureEvents := t.backpressureEvents + 1 }
    else
      let t1 :=
        if BUFFER_LIMIT ≤ t.bufLen then
          { t with
            bufLen := t.bufLen - 1
            itemsDropped := t.itemsDropped + 1 }
        else t
      { t1 with
        bufLen := t1.bufLen + 1
        itemsGenerated := t1.itemsGenerated + 1 }
  else t

/-- The consumer phase on erased states. -/
def shapeConsumer (opts : StreamDemoOptions) (t : SimShape) : SimShape :=
  if 0 < t.bufLen ∧
      t.cycles % ceilDiv (processDelay opts.processingSpeed) cycleQuantum = 0 then
    { t with
      bufLen := t.bufLen - 1
      itemsProcessed := t.itemsProcessed + 1 }
  else t

/-- One loop iteration on erased states. -/
def shapeTick (opts : StreamDemoOptions) (t : SimShape) : SimShape :=
  shapeConsumer opts (shapeProducer opts { t with cycles := t.cycles + 1 })

/-- The loop guard on erased states. -/
def shapeGuard (t : SimShape) : Prop :=
  t.cycles < maxCycles ∧ t.itemsProcessed < TOTAL_ITEMS

instance (t : SimShape) : Decidable (shapeGuard t) := by
  unfold shapeGuard
  infer_instance

/-- `n` guarded loop iterations on erased states. -/
def shapeStepN (opts : StreamDemoOptions) : Nat → SimShape
  | 0 => shape initState
  | n + 1 =>
    let t := shapeStepN opts n
    if shapeGuard t then shapeTick opts t else t

theorem shape_producerPhase (opts : StreamDemoOptions) (rng : Nat → Nat) (s : SimState) :
    shape (producerPhase opts rng s) = shapeProducer opts (shape s) := by
  unfold producerPhase shapeProducer shape
  split_ifs <;>
    simp_all [List.length_append, List.length_tail]

theorem shape_consumerPhase (opts : StreamDemoOptions) (s : SimState) :
    shape (consumerPhase opts s) = shapeConsumer opts (shape s) := by
  unfold consumerPhase shapeConsumer shape
  split_ifs <;>
    simp_all [List.length_tail]

theorem shape_tick (opts : StreamDemoOptions) (rng : Nat → Nat) (s : SimState) :
    shape (tick opts rng s) = shapeTick opts (shape s) := by
  unfold tick shapeTick
  rw [shape_consumerPhase, shape_producerPhase]
  rfl

theorem loopGuard_iff_shapeGuard (s : SimState) : loopGuard s ↔ shapeGuard (shape s) :=
  Iff.rfl

/-- The simulation commutes with value erasure: the counters after `n`
iterations do not depend on the random source. -/
theorem shape_stepN (opts : StreamDemoOptions) (rng : Nat → Nat) (n : Nat) :
    shape (stepN opts rng n) = shapeStepN opts n := by
  induction n with
  | zero => rfl
  | succ n ih =>
    show shape (if loopGuard (stepN opts rng n) then _ else _) =
      (if shapeGuard (shapeStepN opts n) then _ else _)
    by_cases h : loopGuard (stepN opts rng n)
    · rw [if_pos h, if_pos (by rw [← ih]; exact (loopGuard_iff_shapeGuard _).mp h),
        shape_tick, ih]
    · rw [if_neg h, if_neg (by rw [← ih]; exact fun hc => h ((loopGuard_iff_shapeGuard _).mpr hc)), ih]

/-!
## Transfer lemmas

Each counter of the concrete run equals the corresponding field of the
erased run, for every random source.
-/

theorem stepN_cycles (opts : StreamDemoOptions) (rng : Nat → Nat) (n : Nat) :
    (stepN opts rng n).cycles = (shapeStepN opts n).cycles :=
  congrArg SimShape.cycles (shape_stepN opts rng n)

theorem stepN_generated (opts : StreamDemoOptions) (rng : Nat → Nat) (n : Nat) :
    (stepN opts rng n).itemsGenerated = (shapeStepN opts n).itemsGenerated :=
  congrArg SimShape.itemsGenerated (shape_stepN opts rng n)

theorem stepN_processed (opts : StreamDemoOptions) (rng : Nat → Nat) (n : Nat) :
    (stepN opts rng n).itemsProcessed = (shapeStepN opts n).itemsProcessed :=
  congrArg SimShape.itemsProcessed (shape_stepN opts rng n)

theorem stepN_dropped (opts : StreamDemoOptions) (rng : Nat → Nat) (n : Nat) :
    (stepN opts rng n).itemsDropped = (shapeStepN opts n).itemsDropped :=
  congrArg SimShape.itemsDropped (shape_stepN opts rng n)

theorem stepN_bpEvents (opts : StreamDemoOptions) (rng : Nat → Nat) (n : Nat) :
    (stepN opts rng n).backpressureEvents = (shapeStepN opts n).backpressureEvents :=
  congrArg SimShape.backpressureEvents (shape_stepN opts rng n)

theorem stepN_bufLen (opts : StreamDemoOptions) (rng : Nat → Nat) (n : Nat) :
    (stepN opts rng n).buffer.length = (shapeStepN opts n).bufLen :=
  congrArg SimShape.bufLen (shape_stepN opts rng n)

theorem run_processed_eq (opts : StreamDemoOptions) (rng : Nat → Nat) :
    (runRealTimeStreamDemo opts rng).processed = (finalState opts rng).itemsProcessed := by
  simp only [runRealTimeStreamDemo]

theorem run_sum_eq (opts : StreamDemoOptions) (rng : Nat → Nat) :
    (runRealTimeStreamDemo opts rng).sum = sumList (finalState opts rng).results := by
  simp only [runRealTimeStreamDemo]

theorem run_bpEvents_eq (opts : StreamDemoOptions) (rng : Nat → Nat) :
    (runRealTimeStreamDemo opts rng).backpressureEvents
      = (finalState opts rng).backpressureEvents := by
  simp only [runRealTimeStreamDemo]

/-!
## Shape-level invariants
-/

theorem shapeTick_conservation (opts : StreamDemoOptions) (t : SimShape)
    (h1 : t.bufLen + t.itemsProcessed + t.itemsDropped = t.itemsGenerated)
    (h2 : t.bufLen ≤ BUFFER_LIMIT) :
    (shapeTick opts t).bufLen + (shapeTick opts t).itemsProcessed
        + (shapeTick opts t).itemsDropped = (shapeTick opts t).itemsGenerated ∧
    (shapeTick opts t).bufLen ≤ BUFFER_LIMIT := by
  simp only [shapeTick, shapeProducer, shapeConsumer, BUFFER_LIMIT] at h2 ⊢
  split_ifs <;> dsimp only at * <;> omega

/-- The occupancy bookkeeping invariant of the erased run: occupancy plus
the processed and dropped counts equals the generated count, and occupancy
never exceeds the buffer capacity. -/
theorem shapeStepN_conservation (opts : StreamDemoOptions) (n : Nat) :
    (shapeStepN opts n).bufLen + (shapeStepN opts n).itemsProcessed
        + (shapeStepN opts n).itemsDropped = (shapeStepN opts n).itemsGenerated ∧
    (shapeStepN opts n).bufLen ≤ BUFFER_LIMIT := by
  induction n with
  | zero => exact ⟨rfl, by simp [shapeStepN, shape, initState, BUFFER_LIMIT]⟩
  | succ n ih =>
    simp only [shapeStepN]
    split_ifs with h
    · exact shapeTick_conservation opts _ ih.1 ih.2
    · exact ih

theorem shapeTick_generated_le (opts : StreamDemoOptions) (t : SimShape)
    (h : t.itemsGenerated ≤ TOTAL_ITEMS) :
    (shapeTick opts t).itemsGenerated ≤ TOTAL_ITEMS := by
  simp only [shapeTick, shapeProducer, shapeConsumer, TOTAL_ITEMS] at h ⊢
  split_ifs <;> dsimp only at * <;> omega

/-- The generated count of the erased run never exceeds the target. -/
theorem shapeStepN_generated_le (opts : StreamDemoOptions) (n : Nat) :
    (shapeStepN opts n).itemsGenerated ≤ TOTAL_ITEMS := by
  induction n with
  | zero => simp [shapeStepN, shape, initState, TOTAL_ITEMS]
  | succ n ih =>
    simp only [shapeStepN]
    split_ifs with h
    · exact shapeTick_generated_le opts _ ih
    · exact ih

theorem shapeTick_dropped_of_bp (opts : StreamDemoOptions)
    (h : opts.enableBackpressure = true) (t : SimShape) :
    (shapeTick opts t).itemsDropped = t.itemsDropped := by
  simp only [shapeTick, shapeProducer, shapeConsumer, h]
  split_ifs <;> rfl

/-- With backpressure enabled, the erased run never increments the dropped
count. -/
theorem shapeStepN_dropped_of_bp (opts : StreamDemoOptions)
    (h : opts.enableBackpressure = true) (n : Nat) :
    (shapeStepN opts n).itemsDropped = 0 := by
  induction n with
  | zero => rfl
  | succ n ih =>
    simp only [shapeStepN]
    split_ifs with hg
    · rw [shapeTick_dropped_of_bp opts h]
      exact ih
    · exact ih

/-!
## Termination lemmas
-/

theorem shapeTick_cycles (opts : StreamDemoOptions) (t : SimShape) :
    (shapeTick opts t).cycles = t.cycles + 1 := by
  simp only [shapeTick, shapeProducer, shapeConsumer]
  split_ifs <;> rfl

theorem shapeTick_processed_le (opts : StreamDemoOptions) (t : SimShape) :
    (shapeTick opts t).itemsProcessed ≤ t.itemsProcessed + 1 := by
  simp only [shapeTick, shapeProducer, shapeConsumer]
  split_ifs <;> dsimp only <;> omega

theorem shapeStepN_cycles_le (opts : StreamDemoOptions) (n : Nat) :
    (shapeStepN opts n).cycles ≤ maxCycles := by
  induction n with
  | zero => simp [shapeStepN, shape, initState]
  | succ n ih =>
    simp only [shapeStepN]
    split_ifs with h
    · rw [shapeTick_cycles]
      exact h.1
    · exact ih

theorem shapeStepN_processed_le (opts : StreamDemoOptions) (n : Nat) :
    (shapeStepN opts n).itemsProcessed ≤ TOTAL_ITEMS := by
  induction n with
  | zero => simp [shapeStepN, shape, initState]
  | succ n ih =>
    simp only [shapeStepN]
    split_ifs with h
    · have h1 := shapeTick_processed_le opts (shapeStepN opts n)
      have h2 := h.2
      unfold TOTAL_ITEMS at *
      omega
    · exact ih

theorem shapeStepN_cycles_eq_or_done (opts : StreamDemoOptions) :
    ∀ n, n ≤ maxCycles →
      (shapeStepN opts n).cycles = n ∨ (shapeStepN opts n).itemsProcessed = TOTAL_ITEMS := by
  intro n
  induction n with
  | zero => exact fun _ => Or.inl rfl
  | succ n ih =>
    intro hn
    have hn1 : n ≤ maxCycles := Nat.le_of_succ_le hn
    have hple := shapeStepN_processed_le opts n
    simp only [shapeStepN]
    split_ifs with h
    · left
      rw [shapeTick_cycles]
      rcases ih hn1 with hc | hp
      · rw [hc]
      · exact absurd h.2 (by rw [hp]; exact lt_irrefl _)
    · rcases ih hn1 with hc | hp
      · right
        unfold shapeGuard at h
        unfold maxCycles TOTAL_ITEMS at *
        omega
      · exact Or.inr hp


theorem loopGuard_fails_final (opts : StreamDemoOptions) (rng : Nat → Nat) :
    ¬ loopGuard (finalState opts rng) := by
  intro h
  rw [loopGuard_iff_shapeGuard] at h
  unfold finalState at h
  rw [shape_stepN] at h
  rcases shapeStepN_cycles_eq_or_done opts maxCycles le_rfl with hc | hp
  · exact absurd h.1 (by rw [hc]; exact lt_irrefl _)
  · exact absurd h.2 (by rw [hp]; exact lt_irrefl _)

theorem stepN_freeze (opts : StreamDemoOptions) (rng : Nat → Nat) (k : Nat) :
    stepN opts rng (maxCycles + k) = finalState opts rng := by
  induction k with
  | zero => rfl
  | succ k ih =>
    rw [Nat.add_succ]
    simp only [stepN]
    rw [ih, if_neg (loopGuard_fails_final opts rng)]

theorem stepN_stop_of_done (opts : StreamDemoOptions) (rng : Nat → Nat) (n : Nat)
    (h : (stepN opts rng n).itemsProcessed = TOTAL_ITEMS) :
    stepN opts rng (n + 1) = stepN opts rng n := by
  simp only [stepN]
  rw [if_neg]
  intro hg
  unfold loopGuard at hg
  rw [h] at hg
  exact lt_irrefl _ hg.2

/-!
## Fast-consumer invariant
-/

theorem shapeTick_fast (b : Bool) (t : SimShape) (h : t.bufLen = 0) :
    (shapeTick ⟨.fast, b⟩ t).bufLen = 0 ∧
    (shapeTick ⟨.fast, b⟩ t).backpressureEvents = t.backpressureEvents ∧
    (shapeTick ⟨.fast, b⟩ t).itemsDropped = t.itemsDropped := by
  simp only [shapeTick, shapeProducer, shapeConsumer, processDelay, ceilDiv,
    producerInterval, cycleQuantum, BUFFER_LIMIT, TOTAL_ITEMS]
  split_ifs <;> dsimp only at * <;> omega

/-- With a fast consumer (delay 10), the buffer is empty at every tick
boundary and no backpressure or drop event ever occurs, under either
policy. -/
theorem shapeStepN_fast (b : Bool) (n : Nat) :
    (shapeStepN ⟨.fast, b⟩ n).bufLen = 0 ∧
    (shapeStepN ⟨.fast, b⟩ n).backpressureEvents = 0 ∧
    (shapeStepN ⟨.fast, b⟩ n).itemsDropped = 0 := by
  induction n with
  | zero => exact ⟨rfl, rfl, rfl⟩
  | succ n ih =>
    simp only [shapeStepN]
    split_ifs with h
    · obtain ⟨h0, h1, h2⟩ := shapeTick_fast b _ ih.1
      exact ⟨h0, h1.trans ih.2.1, h2.trans ih.2.2⟩
    · exact ih

/-!
## Backpressure-off invariants
-/

theorem shapeTick_bp_of_off (opts : StreamDemoOptions)
    (h : opts.enableBackpressure = false) (t : SimShape) :
    (shapeTick opts t).backpressureEvents = t.backpressureEvents := by
  simp only [shapeTick, shapeProducer, shapeConsumer, h, Bool.false_eq_true, if_false]
  split_ifs <;> rfl

theorem shapeStepN_bp_of_off (opts : StreamDemoOptions)
    (h : opts.enableBackpressure = false) (n : Nat) :
    (shapeStepN opts n).backpressureEvents = 0 := by
  induction n with
  | zero => rfl
  | succ n ih =>
    simp only [shapeStepN]
    split_ifs with hg
    · rw [shapeTick_bp_of_off opts h]
      exact ih
    · exact ih

theorem producerPhase_events_of_off (opts : StreamDemoOptions) (rng : Nat → Nat) (s : SimState)
    (h : opts.enableBackpressure = false) :
    ∀ e ∈ (producerPhase opts rng s).events, e ∈ s.events ∨ eventType e ≠ .backpressure := by
  simp only [producerPhase, h, Bool.false_eq_true, if_false]
  split_ifs
  · intro e he
    simp only [List.mem_append, List.mem_singleton] at he
    rcases he with (he | rfl) | rfl
    · exact Or.inl he
    · exact Or.inr (by simp [eventType])
    · exact Or.inr (by simp [eventType])
  · intro e he
    simp only [List.mem_append, List.mem_singleton] at he
    rcases he with he | rfl
    · exact Or.inl he
    · exact Or.inr (by simp [eventType])
  · intro e he
    exact Or.inl he

theorem consumerPhase_events (opts : StreamDemoOptions) (s : SimState) :
    ∀ e ∈ (consumerPhase opts s).events, e ∈ s.events ∨ eventType e ≠ .backpressure := by
  simp only [consumerPhase]
  split_ifs
  · intro e he
    simp only [List.mem_append, List.mem_singleton] at he
    rcases he with he | rfl
    · exact Or.inl he
    · exact Or.inr (by simp [eventType])
  · intro e he
    exact Or.inl he

theorem tick_events_of_off (opts : StreamDemoOptions) (rng : Nat → Nat) (s : SimState)
    (h : opts.enableBackpressure = false) :
    ∀ e ∈ (tick opts rng s).events, e ∈ s.events ∨ eventType e ≠ .backpressure := by
  intro e he
  rcases consumerPhase_events opts _ e he with he2 | hne
  · rcases producerPhase_events_of_off opts rng _ h e he2 with he3 | hne
    · exact Or.inl he3
    · exact Or.inr hne
  · exact Or.inr hne

theorem stepN_events_of_off (opts : StreamDemoOptions) (rng : Nat → Nat)
    (h : opts.enableBackpressure = false) (n : Nat) :
    ∀ e ∈ (stepN opts rng n).events, eventType e ≠ .backpressure := by
  induction n with
  | zero =>
    intro e he
    simp only [stepN, initState, List.mem_cons, List.not_mem_nil, or_false] at he
    rcases he with rfl | rfl | rfl <;> simp [eventType]
  | succ n ih =>
    simp only [stepN]
    split_ifs with hg
    · intro e he
      rcases tick_events_of_off opts rng _ h e he with he2 | hne
      · exact ih e he2
      · exact hne
    · exact ih

/-!
## Claims
-/

/-- Claim C1: for every configuration with backpressure enabled and every
random source, the dropped-item count is 0 at every point of the run: the
overflow/eviction branch is never taken, so no item ever leaves the buffer
except through the consumer phase. -/
theorem C1_backpressure_never_drops (opts : StreamDemoOptions) (rng : Nat → Nat)
    (h : opts.enableBackpressure = true) (n : Nat) :
    (stepN opts rng n).itemsDropped = 0 := by
  rw [stepN_dropped]
  exact shapeStepN_dropped_of_bp opts h n

/-- Witness for C1 at the normal-speed, backpressure-on configuration. -/
theorem C1_backpressure_never_drops_witness :
    (stepN ⟨Speed.normal, true⟩ rng0 60).itemsDropped = 0 :=
  C1_backpressure_never_drops ⟨Speed.normal, true⟩ rng0 rfl 60

/-- Claim C2: at every point of every run, under both policies, buffer
occupancy plus the processed and dropped counts equals the generated count
(so occupancy is `generated - processed - dropped` and never negative), and
occupancy never exceeds the buffer capacity of 5. -/
theorem C2_occupancy_invariant (opts : StreamDemoOptions) (rng : Nat → Nat) (n : Nat) :
    (stepN opts rng n).buffer.length + (stepN opts rng n).itemsProcessed
        + (stepN opts rng n).itemsDropped = (stepN opts rng n).itemsGenerated ∧
    (stepN opts rng n).itemsProcessed + (stepN opts rng n).itemsDropped
        ≤ (stepN opts rng n).itemsGenerated ∧
    (stepN opts rng n).buffer.length ≤ BUFFER_LIMIT := by
  have h := shapeStepN_conservation opts n
  rw [stepN_bufLen, stepN_processed, stepN_dropped, stepN_generated]
  omega

/-- Claim C3 is false on the code: with capacity 5, target 20, backpressure
on, and the normal consumer delay 50 > producer interval 30, the run ends
with processedCount = 12, not 20 — the 60-tick budget runs out first. -/
theorem C3_counterexample :
    producerInterval < processDelay Speed.normal ∧
    (runRealTimeStreamDemo ⟨Speed.normal, true⟩ rng0).processed = 12 ∧
    (runRealTimeStreamDemo ⟨Speed.normal, true⟩ rng0).processed ≠ TOTAL_ITEMS := by
  decide

/-- Claim C3 (amended): with backpressure on and a consumer delay strictly
greater than the producer interval, every run ends with
backpressureEvents > 0 and droppedCount = 0, but processedCount strictly
below the target of 20. -/
theorem C3_amended_pressure_run (opts : StreamDemoOptions) (rng : Nat → Nat)
    (hbp : opts.enableBackpressure = true)
    (hslow : producerInterval < processDelay opts.processingSpeed) :
    0 < (runRealTimeStreamDemo opts rng).backpressureEvents ∧
    (finalState opts rng).itemsDropped = 0 ∧
    (runRealTimeStreamDemo opts rng).processed < TOTAL_ITEMS := by
  obtain ⟨speed, bp⟩ := opts
  cases bp with
  | false => exact absurd hbp (by simp)
  | true =>
    cases speed with
    | fast => exact absurd hslow (by decide)
    | normal =>
      refine ⟨?_, ?_, ?_⟩
      · rw [run_bpEvents_eq]
        unfold finalState
        rw [stepN_bpEvents]
        decide
      · unfold finalState
        rw [stepN_dropped]
        decide
      · rw [run_processed_eq]
        unfold finalState
        rw [stepN_processed]
        decide
    | slow =>
      refine ⟨?_, ?_, ?_⟩
      · rw [run_bpEvents_eq]
        unfold finalState
        rw [stepN_bpEvents]
        decide
      · unfold finalState
        rw [stepN_dropped]
        decide
      · rw [run_processed_eq]
        unfold finalState
        rw [stepN_processed]
        decide

/-- Witness for the amended C3 at the normal-speed, backpressure-on
configuration. -/
theorem C3_amended_pressure_run_witness :
    0 < (runRealTimeStreamDemo ⟨Speed.normal, true⟩ rng0).backpressureEvents :=
  (C3_amended_pressure_run ⟨Speed.normal, true⟩ rng0 rfl (by decide)).1

/-- Claim C4: with backpressure off and a consumer delay strictly greater
than the producer interval, every run ends with droppedCount > 0,
generatedCount = 20 and processedCount ≤ 20. -/
theorem C4_overflow_without_backpressure (opts : StreamDemoOptions) (rng : Nat → Nat)
    (hoff : opts.enableBackpressure = false)
    (hslow : producerInterval < processDelay opts.processingSpeed) :
    0 < (finalState opts rng).itemsDropped ∧
    (finalState opts rng).itemsGenerated = TOTAL_ITEMS ∧
    (runRealTimeStreamDemo opts rng).processed ≤ TOTAL_ITEMS := by
  obtain ⟨speed, bp⟩ := opts
  cases bp with
  | true => exact absurd hoff (by simp)
  | false =>
    cases speed with
    | fast => exact absurd hslow (by decide)
    | normal =>
      refine ⟨?_, ?_, ?_⟩
      · unfold finalState
        rw [stepN_dropped]
        decide
      · unfold finalState
        rw [stepN_generated]
        decide
      · rw [run_processed_eq]
        unfold finalState
        rw [stepN_processed]
        decide
    | slow =>
      refine ⟨?_, ?_, ?_⟩
      · unfold finalState
        rw [stepN_dropped]
        decide
      · unfold finalState
        rw [stepN_generated]
        decide
      · rw [run_processed_eq]
        unfold finalState
        rw [stepN_processed]
        decide

/-- Witness for C4 at the normal-speed, backpressure-off configuration. -/
theorem C4_overflow_without_backpressure_witness :
    0 < (finalState ⟨Speed.normal, false⟩ rng0).itemsDropped :=
  (C4_overflow_without_backpressure ⟨Speed.normal, false⟩ rng0 rfl (by decide)).1

/-- Claim C5: when the consumer delay is strictly below the producer
interval (the fast class), every run — with either policy — ends with
backpressureEvents = 0 and droppedCount = 0, and the buffer occupancy stays
strictly below the capacity of 5 at every point. -/
theorem C5_fast_consumer_no_pressure (opts : StreamDemoOptions) (rng : Nat → Nat)
    (hfast : processDelay opts.processingSpeed < producerInterval) :
    (runRealTimeStreamDemo opts rng).backpressureEvents = 0 ∧
    (finalState opts rng).itemsDropped = 0 ∧
    ∀ n, (stepN opts rng n).buffer.length < BUFFER_LIMIT := by
  obtain ⟨speed, bp⟩ := opts
  cases speed with
  | slow =>
    simp only [processDelay, producerInterval] at hfast
    exact absurd hfast (by decide)
  | normal =>
    simp only [processDelay, producerInterval] at hfast
    exact absurd hfast (by decide)
  | fast =>
    refine ⟨?_, ?_, fun n => ?_⟩
    · rw [run_bpEvents_eq]
      unfold finalState
      rw [stepN_bpEvents]
      exact (shapeStepN_fast bp maxCycles).2.1
    · unfold finalState
      rw [stepN_dropped]
      exact (shapeStepN_fast bp maxCycles).2.2
    · rw [stepN_bufLen, (shapeStepN_fast bp n).1]
      decide

/-- Witness for C5 at the fast, backpressure-on configuration. -/
theorem C5_fast_consumer_no_pressure_witness :
    (runRealTimeStreamDemo ⟨Speed.fast, true⟩ rng0).backpressureEvents = 0 :=
  (C5_fast_consumer_no_pressure ⟨Speed.fast, true⟩ rng0 (by decide)).1

/-- Claim C6: two runs with the same configuration and the same
deterministic random source produce identical event sequences and an
identical SimulationResult. -/
theorem C6_deterministic_runs (opts : StreamDemoOptions) (rng₁ rng₂ : Nat → Nat)
    (h : ∀ k, rng₁ k = rng₂ k) :
    runEvents opts rng₁ = runEvents opts rng₂ ∧
    runRealTimeStreamDemo opts rng₁ = runRealTimeStreamDemo opts rng₂ := by
  have he : rng₁ = rng₂ := funext h
  rw [he]
  exact ⟨rfl, rfl⟩

/-- Witness for C6: the fast, backpressure-on configuration run twice with
the same source. -/
theorem C6_deterministic_runs_witness :
    runEvents ⟨Speed.fast, true⟩ rng0 = runEvents ⟨Speed.fast, true⟩ rng0 :=
  (C6_deterministic_runs ⟨Speed.fast, true⟩ rng0 rng0 (fun _ => rfl)).1

/-- Claim C7: the loop's tick budget is max(2 × 20, 60) = 60; `cycles`
never exceeds 60; at exit either the processed count reached the target or
the budget was exhausted; a state whose processed count has reached the
target takes no further step; and no step beyond the 60th changes the
state. -/
theorem C7_loop_terminates (opts : StreamDemoOptions) (rng : Nat → Nat) :
    maxCycles = 60 ∧
    (∀ n, (stepN opts rng n).cycles ≤ maxCycles) ∧
    ((finalState opts rng).itemsProcessed = TOTAL_ITEMS ∨
      (finalState opts rng).cycles = maxCycles) ∧
    (∀ n, (stepN opts rng n).itemsProcessed = TOTAL_ITEMS →
      stepN opts rng (n + 1) = stepN opts rng n) ∧
    (∀ k, stepN opts rng (maxCycles + k) = finalState opts rng) := by
  refine ⟨rfl, fun n => ?_, ?_, fun n h => stepN_stop_of_done opts rng n h,
    fun k => stepN_freeze opts rng k⟩
  · rw [stepN_cycles]
    exact shapeStepN_cycles_le opts n
  · rcases shapeStepN_cycles_eq_or_done opts maxCycles le_rfl with hc | hp
    · right
      unfold finalState
      rw [stepN_cycles]
      exact hc
    · left
      unfold finalState
      rw [stepN_processed]
      exact hp

/-- Witness for C7: the fast, backpressure-on run reaches the target at
tick 60 and takes no further step. -/
theorem C7_loop_terminates_witness :
    stepN ⟨Speed.fast, true⟩ rng0 (60 + 1) = stepN ⟨Speed.fast, true⟩ rng0 60 :=
  (C7_loop_terminates ⟨Speed.fast, true⟩ rng0).2.2.2.1 60 (by decide)

/-- Claim C8 is false on the code: the returned record of the normal-speed
backpressure-on run is {processed = 12, sum = 0, backpressureEvents = 4}
while the generated count is 16 — no component of the returned value
carries the generated count. -/
theorem C8_counterexample :
    (runRealTimeStreamDemo ⟨Speed.normal, true⟩ rng0).processed = 12 ∧
    (runRealTimeStreamDemo ⟨Speed.normal, true⟩ rng0).sum = 0 ∧
    (runRealTimeStreamDemo ⟨Speed.normal, true⟩ rng0).backpressureEvents = 4 ∧
    (finalState ⟨Speed.normal, true⟩ rng0).itemsGenerated = 16 ∧
    (runRealTimeStreamDemo ⟨Speed.normal, true⟩ rng0).processed ≠ 16 ∧
    (runRealTimeStreamDemo ⟨Speed.normal, true⟩ rng0).sum ≠ 16 ∧
    (runRealTimeStreamDemo ⟨Speed.normal, true⟩ rng0).backpressureEvents ≠ 16 := by
  decide

/-- Claim C8 (amended): the simulation entry point returns a record of
exactly the processed count, the transformed sum and the backpressure-event
count; the generated and dropped counts are delivered in the final
'complete' event's payload of the event log, not in the return value. -/
theorem C8_result_contents (opts : StreamDemoOptions) (rng : Nat → Nat) :
    runRealTimeStreamDemo opts rng =
      { processed := (finalState opts rng).itemsProcessed
        sum := sumList (finalState opts rng).results
        backpressureEvents := (finalState opts rng).backpressureEvents } ∧
    SimEvent.finalSummary (finalState opts rng).itemsGenerated
        (finalState opts rng).itemsProcessed (finalState opts rng).itemsDropped
        (sumList (finalState opts rng).results) (finalState opts rng).backpressureEvents
      ∈ runEvents opts rng := by
  constructor
  · simp only [runRealTimeStreamDemo]
  · simp [runEvents, List.mem_append]

/-- Claim C9: under both policies, the generated count never exceeds the
target of 20 at any point of the run. -/
theorem C9_generated_le_target (opts : StreamDemoOptions) (rng : Nat → Nat) (n : Nat) :
    (stepN opts rng n).itemsGenerated ≤ TOTAL_ITEMS := by
  rw [stepN_generated]
  exact shapeStepN_generated_le opts n

/-- Claim C10: with backpressure disabled, the returned backpressure-event
count is 0 and no event of type backpressure is ever delivered to the
event sink. -/
theorem C10_off_no_backpressure_events (opts : StreamDemoOptions) (rng : Nat → Nat)
    (h : opts.enableBackpressure = false) :
    (runRealTimeStreamDemo opts rng).backpressureEvents = 0 ∧
    ∀ e ∈ runEvents opts rng, eventType e ≠ .backpressure := by
  constructor
  · rw [run_bpEvents_eq]
    unfold finalState
    rw [stepN_bpEvents]
    exact shapeStepN_bp_of_off opts h maxCycles
  · intro e he
    simp only [runEvents, h, Bool.false_eq_true, if_false,
      List.mem_append, List.mem_singleton] at he
    rcases he with (he | rfl) | rfl
    · exact stepN_events_of_off opts rng h maxCycles e he
    · simp [eventType]
    · simp [eventType]

/-- Witness for C10 at the normal-speed, backpressure-off configuration. -/
theorem C10_off_no_backpressure_events_witness :
    (runRealTimeStreamDemo ⟨Speed.normal, false⟩ rng0).backpressureEvents = 0 :=
  (C10_off_no_backpressure_events ⟨Speed.normal, false⟩ rng0 rfl).1

end Streams
